import Mathlib

/-!
Verification of the descriptor resolution layer of tk-core
(`python/tank/descriptor/descriptor.py`).

The high-level `Descriptor` class and the factory `create_descriptor` are
embedded from the source.  The low-level IO descriptor layer
(`create_io_descriptor` and the `IODescriptor` variants) is not part of the
sources at hand; it is modelled from the spec as an abstract environment
`IOEnv` carrying the backend operations (`get_latest_version`, descriptor
construction, filesystem queries) as opaque functions, together with a record
`IODescriptor` of the observable state an IO descriptor owns (location
reference, resolved path, manifest mapping, version, system name, changelog
and deprecation data).

Python object identity matters for the frame claims about
`find_latest_version` (which performs `copy.copy(self)` and then swaps the
`_io_descriptor` attribute of the copy), so descriptor objects are modelled
as entries of an explicit heap (`Heap`, a list of objects addressed by
index); allocation appends, attribute update rewrites one slot.
-/

namespace TkCore

/-- Modelled from the spec: a Location Reference is a backend kind plus
backend-specific fields.  Strings are modelled as `List Char` so that the
URI codec can be reasoned about with list lemmas. -/
structure LocationReference where
  kind : List Char
  fields : List (List Char)
  deriving DecidableEq, Repr

/-- Modelled from the spec: the observable state of a low-level IO
descriptor.  `manifest` is the key-value mapping returned by
`get_manifest()` (empty when the bundle has no manifest file);
`changelog` is the `(summary, url)` pair of `get_changelog()`;
`deprecation_status` the `(is_deprecated, message)` pair. -/
structure IODescriptor where
  dict : LocationReference
  path : String
  manifest : List (String × String)
  version : String
  system_name : String
  changelog : Option String × Option String
  deprecation_status : Bool × Option String
  is_dev : Bool
  is_immutable : Bool
  deriving DecidableEq, Repr

/-- The five concrete `Descriptor` subclasses created by the factory
(`AppDescriptor`, `EngineDescriptor`, `FrameworkDescriptor`,
`ConfigDescriptor`, `CoreDescriptor`). -/
inductive DescriptorKind where
  | app
  | engine
  | framework
  | config
  | core
  deriving DecidableEq, Repr

/-- A `Descriptor` object: the concrete class it was instantiated as,
plus the single owned attribute `_io_descriptor` (from
`Descriptor.__init__`). -/
structure Descriptor where
  cls : DescriptorKind
  io_descriptor : IODescriptor
  deriving DecidableEq, Repr

/-- The `dict_or_uri` argument of `create_descriptor`: either a descriptor
dictionary or a uri string.  The factory passes it through opaquely. -/
inductive DictOrUri where
  | fromDict (d : LocationReference)
  | fromUri (u : List Char)
  deriving DecidableEq, Repr

/-- Lookup in a manifest mapping, embedding Python `dict.get(key)`
(returns `None` when the key is absent). -/
def manifest_get (m : List (String × String)) (k : String) : Option String :=
  (m.find? (fun kv => kv.fst == k)).map (fun kv => kv.snd)

/-- Embedding of POSIX `os.path.join(a, b)`: an absolute second component
replaces the first; otherwise the parts are glued with a single `/`
inserted unless `a` is empty or already ends with `/`. -/
def os_path_join (a b : String) : String :=
  if b.startsWith "/" then b
  else if a = "" then b
  else if a.endsWith "/" then a ++ b
  else a ++ "/" ++ b

/-- Embedding of `os.path.abspath` relative to a current working
directory: an absolute path is returned as is, a relative one is joined
onto `cwd`.  (The `normpath` clean-up of `.` and `..` segments performed
by the real `abspath` is not modelled; no claim depends on it.) -/
def os_path_abspath (cwd p : String) : String :=
  if p.startsWith "/" then p else os_path_join cwd p

/-- Modelled from the spec: the external collaborators consumed by
`descriptor.py`.  `get_latest_version` is the IO-descriptor operation
delegated to by `find_latest_version`; `create_io` is
`create_io_descriptor` (missing from the sources), taking the connection
handle, descriptor type, reference, writable cache root, fallback roots,
resolve-latest flag and constraint pattern; `path_exists` is
`os.path.exists`; `module_dir` is the directory of `descriptor.py`
(`os.path.dirname(__file__)`); `global_cache_root` is
`LocalFileStorageManager.get_global_root(CACHE)`. -/
structure IOEnv where
  get_latest_version : IODescriptor → Option String → IODescriptor
  create_io : Nat → Nat → DictOrUri → String → List String → Bool → Option String → IODescriptor
  path_exists : String → Bool
  cwd : String
  module_dir : String
  global_cache_root : String

namespace Descriptor

/-- The class constants `(APP, FRAMEWORK, ENGINE, CONFIG, CORE) = range(5)`. -/
def APP : Nat := 0

/-- `Descriptor.FRAMEWORK = 1`. -/
def FRAMEWORK : Nat := 1

/-- `Descriptor.ENGINE = 2`. -/
def ENGINE : Nat := 2

/-- `Descriptor.CONFIG = 3`. -/
def CONFIG : Nat := 3

/-- `Descriptor.CORE = 4`. -/
def CORE : Nat := 4

/-- `Descriptor.get_dict`: returns the dictionary associated with this
descriptor (delegates to the IO descriptor). -/
def get_dict (d : Descriptor) : LocationReference :=
  d.io_descriptor.dict

/-- Source line `get_location = get_dict`: legacy support for the
previous method name, defined as an alias of the very same function. -/
def get_location : Descriptor → LocationReference :=
  get_dict

/-- `Descriptor.get_path`: the folder where the item resides or would
reside (delegates to the IO descriptor). -/
def get_path (d : Descriptor) : String :=
  d.io_descriptor.path

/-- `Descriptor.version`: the version number string (delegates). -/
def version (d : Descriptor) : String :=
  d.io_descriptor.version

/-- `Descriptor.system_name`: short name for configuration files and
folders (delegates). -/
def system_name (d : Descriptor) : String :=
  d.io_descriptor.system_name

/-- `Descriptor.display_name`: manifest `display_name`, falling back on
the system name when undefined. -/
def display_name (d : Descriptor) : String :=
  match manifest_get d.io_descriptor.manifest "display_name" with
  | some s => s
  | none => d.system_name

/-- `Descriptor.description`: manifest `description`, falling back on the
fixed string when undefined. -/
def description (d : Descriptor) : String :=
  match manifest_get d.io_descriptor.manifest "description" with
  | some s => s
  | none => "No description available."

/-- `Descriptor.support_url`: manifest `support_url`, falling back on the
fixed support site when undefined. -/
def support_url (d : Descriptor) : String :=
  match manifest_get d.io_descriptor.manifest "support_url" with
  | some s => s
  | none => "https://support.shotgunsoftware.com"

/-- `Descriptor.documentation_url`: manifest `documentation_url`; may be
`None`, which is fine. -/
def documentation_url (d : Descriptor) : Option String :=
  manifest_get d.io_descriptor.manifest "documentation_url"

/-- `Descriptor.changelog`: delegates to `get_changelog()`. -/
def changelog (d : Descriptor) : Option String × Option String :=
  d.io_descriptor.changelog

/-- `Descriptor.deprecation_status`: delegates to
`get_deprecation_status()`. -/
def deprecation_status (d : Descriptor) : Bool × Option String :=
  d.io_descriptor.deprecation_status

/-- The built-in default icon returned by `icon_256` when the bundle has
none: `os.path.abspath(os.path.join(os.path.dirname(__file__),
"resources", "default_bundle_256px.png"))`. -/
def default_icon_path (env : IOEnv) : String :=
  os_path_abspath env.cwd
    (os_path_join (os_path_join env.module_dir "resources") "default_bundle_256px.png")

/-- `Descriptor.icon_256`: the bundle's own `icon_256.png` under its path
when that file exists, otherwise the built-in default icon. -/
def icon_256 (env : IOEnv) (d : Descriptor) : String :=
  let app_icon := os_path_join d.io_descriptor.path "icon_256.png"
  if env.path_exists app_icon then app_icon
  else default_icon_path env

end Descriptor

/-- The second operand of `Descriptor.__eq__`/`__ne__`: an arbitrary
Python object, either a descriptor or something else entirely. -/
inductive Obj where
  | desc (d : Descriptor)
  | other (tag : Nat)
  deriving DecidableEq, Repr

/-- Membership test `isinstance(other, self.__class__)`: the factory only
ever instantiates the five leaf classes, so instance-of-class-of-`self`
amounts to having the same concrete class. -/
def Obj.isinstance_of_class (o : Obj) (self : Descriptor) : Bool :=
  match o with
  | .desc d2 => d2.cls == self.cls
  | .other _ => false

namespace Descriptor

/-- `Descriptor.__eq__`: when `other` is an instance of `self`'s class,
compare the paths to the data on disk; otherwise `False`. -/
def eq (self : Descriptor) (o : Obj) : Bool :=
  if Obj.isinstance_of_class o self then
    match o with
    | .desc d2 => self.get_path == d2.get_path
    | .other _ => false
  else false

/-- `Descriptor.__ne__`: `not (self == other)`. -/
def ne (self : Descriptor) (o : Obj) : Bool :=
  !(eq self o)

end Descriptor

/-- The object heap: descriptor objects addressed by index.  Python
object identity is index identity; `copy.copy` allocates a fresh index
holding the same field values. -/
abbrev Heap := List Descriptor

/-- Attribute assignment `obj._io_descriptor = x` on the object at index
`n`: rewrites that one slot, every other object is untouched. -/
def Heap.setIO : Heap → Nat → IODescriptor → Heap
  | [], _, _ => []
  | d :: t, 0, x => { d with io_descriptor := x } :: t
  | d :: t, Nat.succ n, x => d :: Heap.setIO t n x

/-- `Descriptor.find_latest_version(constraint_pattern)` on the object at
index `self`: `latest = copy.copy(self)` allocates a shallow copy (a new
object with the same class and the same `_io_descriptor` value), then
`latest._io_descriptor = self._io_descriptor.get_latest_version(p)`
swaps the owned field of the copy, and `latest` is returned.  `none` is
produced only for a dangling index, which cannot arise in Python. -/
def Descriptor.find_latest_version (env : IOEnv) (h : Heap) (self : Nat)
    (constraint_pattern : Option String) : Option (Heap × Nat) :=
  (h[self]?).map (fun d =>
    (Heap.setIO (h ++ [d]) h.length
        (env.get_latest_version d.io_descriptor constraint_pattern),
      h.length))

/-- `Heap.setIO` leaves every slot other than the assigned one alone. -/
theorem Heap.setIO_getElem?_ne (h : Heap) (n i : Nat) (x : IODescriptor)
    (hne : i ≠ n) : (Heap.setIO h n x)[i]? = h[i]? := by
  induction h generalizing n i with
  | nil => rfl
  | cons d t ih =>
    cases n with
    | zero =>
      cases i with
      | zero => exact absurd rfl hne
      | succ j => simp [Heap.setIO]
    | succ m =>
      cases i with
      | zero => simp [Heap.setIO]
      | succ j =>
        simp only [Heap.setIO, List.getElem?_cons_succ]
        exact ih m j (fun hc => hne (by rw [hc]))

/-- `Heap.setIO` updates exactly the `io_descriptor` field of the
assigned slot. -/
theorem Heap.setIO_getElem?_eq (h : Heap) (n : Nat) (x : IODescriptor) :
    (Heap.setIO h n x)[n]? =
      (h[n]?).map (fun d => { d with io_descriptor := x }) := by
  induction h generalizing n with
  | nil => rfl
  | cons d t ih =>
    cases n with
    | zero => simp [Heap.setIO]
    | succ m =>
      simp only [Heap.setIO, List.getElem?_cons_succ]
      exact ih m

/-- A concrete IO descriptor used for evaluating the theorems. -/
def exIo : IODescriptor :=
  { dict := ⟨"app_store".toList, ["tk-multi-demo".toList, "v1.0.0".toList]⟩
    path := "/cache/app_store/tk-multi-demo/v1.0.0"
    manifest := []
    version := "v1.0.0"
    system_name := "tk-multi-demo"
    changelog := (none, none)
    deprecation_status := (false, none)
    is_dev := false
    is_immutable := true }

/-- A concrete `AppDescriptor` over `exIo`. -/
def exApp : Descriptor :=
  { cls := .app, io_descriptor := exIo }

/-- A concrete `EngineDescriptor` over the same IO descriptor (and hence
the same resolved path) as `exApp`. -/
def exEngine : Descriptor :=
  { cls := .engine, io_descriptor := exIo }

/-- The environment used for evaluating the theorems: resolving latest
bumps the version and path, no icon file exists on disk, and IO
descriptor construction records the cache root it was given. -/
def exEnv : IOEnv :=
  { get_latest_version := fun iod _ =>
      { iod with
        version := "v2.0.0"
        path := "/cache/app_store/tk-multi-demo/v2.0.0" }
    create_io := fun _ _ _ root _ _ _ => { exIo with path := root }
    path_exists := fun _ => false
    cwd := "/work"
    module_dir := "/install/core/python/tank/descriptor"
    global_cache_root := "/home/user/caches/sg" }

/-- The IO descriptor `exEnv` resolves `exIo` to as latest. -/
def exIo2 : IODescriptor :=
  { exIo with
    version := "v2.0.0"
    path := "/cache/app_store/tk-multi-demo/v2.0.0" }

/-- The descriptor object produced by `find_latest_version` on `exApp`. -/
def exApp2 : Descriptor :=
  { cls := .app, io_descriptor := exIo2 }

/-- A one-object heap holding `exApp`. -/
def exHeap : Heap := [exApp]

/-- The heap after `find_latest_version` on `exApp` in `exHeap`. -/
def exHeap2 : Heap := [exApp, exApp2]

/-- C1: `find_latest_version` leaves `self` unchanged: the object at the
original index holds exactly the same state after the call (hence its
`version` and every other accessor are unchanged), even though the
returned descriptor's version may differ. -/
theorem find_latest_version_frame (env : IOEnv) (h : Heap) (r : Nat)
    (p : Option String) (h2 : Heap) (r2 : Nat)
    (hfind : Descriptor.find_latest_version env h r p = some (h2, r2)) :
    h2[r]? = h[r]? ∧
      (h2[r]?).map Descriptor.version = (h[r]?).map Descriptor.version := by
  unfold Descriptor.find_latest_version at hfind
  cases hd : h[r]? with
  | none => rw [hd] at hfind; simp at hfind
  | some d =>
    rw [hd] at hfind
    simp only [Option.map_some'] at hfind
    obtain ⟨hh2, hr2⟩ := Prod.mk.injEq .. ▸ Option.some.inj hfind
    have hr : r < h.length := by
      rcases List.getElem?_eq_some.mp hd with ⟨hlt, _⟩
      exact hlt
    have hmain : h2[r]? = h[r]? := by
      rw [← hh2]
      rw [Heap.setIO_getElem?_ne _ _ _ _ (Nat.ne_of_lt hr)]
      exact List.getElem?_append_left hr
    have hgoal : h2[r]? = some d := by rw [hmain, hd]
    exact ⟨hgoal, by rw [hgoal]⟩

/-- Witness for C1 on the concrete heap `exHeap`. -/
theorem find_latest_version_frame_witness :
    exHeap2[0]? = exHeap[0]? ∧
      (exHeap2[0]?).map Descriptor.version =
        (exHeap[0]?).map Descriptor.version :=
  find_latest_version_frame exEnv exHeap 0 none exHeap2 1 (by decide)

/-- C2: `find_latest_version` returns a fresh object, distinct from
`self`, of the same concrete class, whose bound IO descriptor is exactly
`self._io_descriptor.get_latest_version(p)`. -/
theorem find_latest_version_new_descriptor (env : IOEnv) (h : Heap)
    (r : Nat) (p : Option String) (h2 : Heap) (r2 : Nat) (d : Descriptor)
    (hd : h[r]? = some d)
    (hfind : Descriptor.find_latest_version env h r p = some (h2, r2)) :
    r2 ≠ r ∧
      h2[r2]? = some
        { cls := d.cls
          io_descriptor := env.get_latest_version d.io_descriptor p } := by
  unfold Descriptor.find_latest_version at hfind
  rw [hd] at hfind
  simp only [Option.map_some'] at hfind
  obtain ⟨hh2, hr2⟩ := Prod.mk.injEq .. ▸ Option.some.inj hfind
  have hr : r < h.length := by
    rcases List.getElem?_eq_some.mp hd with ⟨hlt, _⟩
    exact hlt
  constructor
  · rw [← hr2]
    exact fun hc => absurd (hc ▸ hr) (Nat.lt_irrefl _)
  · rw [← hh2, ← hr2, Heap.setIO_getElem?_eq, List.getElem?_concat_length]
    rfl

/-- Witness for C2 on the concrete heap `exHeap`. -/
theorem find_latest_version_new_descriptor_witness :
    (1 : Nat) ≠ 0 ∧
      exHeap2[1]? = some
        { cls := exApp.cls
          io_descriptor :=
            exEnv.get_latest_version exApp.io_descriptor none } :=
  find_latest_version_new_descriptor exEnv exHeap 0 none exHeap2 1 exApp
    (by decide) (by decide)

/-- C9: the legacy method `get_location` is the same operation as
`get_dict`: for every Descriptor they return identical results (the
bound IO descriptor's dictionary form). -/
theorem get_location_eq_get_dict :
    ∀ d : Descriptor, d.get_location = d.get_dict :=
  fun _ => rfl

/-- C3 counterexample: the claim "`d1 == d2` holds exactly when their
resolved local paths are equal" fails at the concrete pair `exApp`,
`exEngine`: both wrap the same IO descriptor, so their resolved paths
coincide, yet `__eq__` returns `False` because of the `isinstance`
class gate. -/
theorem descriptor_eq_not_path_only :
    ¬ (Descriptor.eq exApp (Obj.desc exEngine) = true ↔
        exApp.get_path = exEngine.get_path) := by
  decide

/-- C3 amended: `d1 == d2` holds exactly when `d2` is of `d1`'s concrete
class and their resolved local paths are equal; in particular two
same-kind Descriptors built from different but equivalent location
references are equal whenever their resolved local paths match. -/
theorem descriptor_eq_iff_same_class_and_path (d1 d2 : Descriptor) :
    Descriptor.eq d1 (Obj.desc d2) = true ↔
      (d2.cls = d1.cls ∧ d1.get_path = d2.get_path) := by
  unfold Descriptor.eq Obj.isinstance_of_class
  by_cases h : d2.cls = d1.cls
  · simp [h]
  · simp [h]

/-- C10: equality is gated on the concrete class: if `o` is not an
instance of `d`'s class — in particular when `o` is a Descriptor of a
different kind, even over the same cached path — then `d == o` is
`False` and `d != o` is `True`. -/
theorem descriptor_eq_class_gated (d : Descriptor) (o : Obj)
    (hno : Obj.isinstance_of_class o d = false) :
    Descriptor.eq d o = false ∧ Descriptor.ne d o = true := by
  unfold Descriptor.ne Descriptor.eq
  rw [hno]
  simp

/-- Witness for C10 at the concrete pair `exApp`, `exEngine`. -/
theorem descriptor_eq_class_gated_witness :
    Descriptor.eq exApp (Obj.desc exEngine) = false ∧
      Descriptor.ne exApp (Obj.desc exEngine) = true :=
  descriptor_eq_class_gated exApp (Obj.desc exEngine) (by decide)

/-- `TankDescriptorError` (from `errors.py`, a `TankError` carrying a
message): the error raised by `create_descriptor` for an unsupported
descriptor type. -/
structure TankDescriptorError where
  message : String
  deriving DecidableEq, Repr

/-- The externally visible side effects of `create_descriptor`:
consulting the process-wide default cache root provider
(`_get_default_bundle_cache_root`) and `filesystem.ensure_folder_exists`. -/
inductive Effect where
  | queryDefaultRoot
  | ensureFolder (path : String)
  deriving DecidableEq, Repr

/-- `_get_default_bundle_cache_root`:
`os.path.join(LocalFileStorageManager.get_global_root(CACHE), "bundle_cache")`. -/
def get_default_bundle_cache_root (env : IOEnv) : String :=
  os_path_join env.global_cache_root "bundle_cache"

/-- `create_descriptor`: substitutes the default bundle cache root when
no override is supplied (creating the folder), defaults the fallback
roots to `[]`, builds the IO descriptor via `create_io_descriptor`, and
dispatches on `descriptor_type` to the matching `Descriptor` variant,
raising `TankDescriptorError` for an unrecognised type.  Alongside the
result it returns the trace of external side effects performed. -/
def create_descriptor (env : IOEnv) (sg_connection : Nat)
    (descriptor_type : Nat) (dict_or_uri : DictOrUri)
    (bundle_cache_root_override : Option String)
    (fallback_roots : Option (List String)) (resolve_latest : Bool)
    (constraint_pattern : Option String) :
    List Effect × Except TankDescriptorError Descriptor :=
  let cache_root :=
    match bundle_cache_root_override with
    | none => get_default_bundle_cache_root env
    | some root => root
  let effects :=
    match bundle_cache_root_override with
    | none => [Effect.queryDefaultRoot, Effect.ensureFolder cache_root]
    | some _ => []
  let roots := fallback_roots.getD []
  let iod := env.create_io sg_connection descriptor_type dict_or_uri
    cache_root roots resolve_latest constraint_pattern
  if descriptor_type = Descriptor.APP then
    (effects, Except.ok { cls := .app, io_descriptor := iod })
  else if descriptor_type = Descriptor.ENGINE then
    (effects, Except.ok { cls := .engine, io_descriptor := iod })
  else if descriptor_type = Descriptor.FRAMEWORK then
    (effects, Except.ok { cls := .framework, io_descriptor := iod })
  else if descriptor_type = Descriptor.CONFIG then
    (effects, Except.ok { cls := .config, io_descriptor := iod })
  else if descriptor_type = Descriptor.CORE then
    (effects, Except.ok { cls := .core, io_descriptor := iod })
  else
    (effects, Except.error { message := "Unsupported descriptor type" })

/-- The IO descriptor `create_descriptor` builds and binds: the cache
root is the override when supplied, the default root otherwise, and the
fallback roots default to `[]`. -/
def created_io (env : IOEnv) (sg_connection descriptor_type : Nat)
    (dict_or_uri : DictOrUri) (bundle_cache_root_override : Option String)
    (fallback_roots : Option (List String)) (resolve_latest : Bool)
    (constraint_pattern : Option String) : IODescriptor :=
  env.create_io sg_connection descriptor_type dict_or_uri
    (match bundle_cache_root_override with
     | none => get_default_bundle_cache_root env
     | some root => root)
    (fallback_roots.getD []) resolve_latest constraint_pattern

theorem create_descriptor_snd (env : IOEnv) (conn t : Nat) (u : DictOrUri)
    (o : Option String) (fb : Option (List String)) (rl : Bool)
    (cp : Option String) :
    (create_descriptor env conn t u o fb rl cp).snd =
      (if t = Descriptor.APP then
        Except.ok { cls := .app, io_descriptor := created_io env conn t u o fb rl cp }
      else if t = Descriptor.ENGINE then
        Except.ok { cls := .engine, io_descriptor := created_io env conn t u o fb rl cp }
      else if t = Descriptor.FRAMEWORK then
        Except.ok { cls := .framework, io_descriptor := created_io env conn t u o fb rl cp }
      else if t = Descriptor.CONFIG then
        Except.ok { cls := .config, io_descriptor := created_io env conn t u o fb rl cp }
      else if t = Descriptor.CORE then
        Except.ok { cls := .core, io_descriptor := created_io env conn t u o fb rl cp }
      else Except.error { message := "Unsupported descriptor type" }) := by
  by_cases h0 : t = Descriptor.APP
  · subst h0; cases o <;> rfl
  by_cases h1 : t = Descriptor.ENGINE
  · subst h1; cases o <;> rfl
  by_cases h2 : t = Descriptor.FRAMEWORK
  · subst h2; cases o <;> rfl
  by_cases h3 : t = Descriptor.CONFIG
  · subst h3; cases o <;> rfl
  by_cases h4 : t = Descriptor.CORE
  · subst h4; cases o <;> rfl
  rw [if_neg h0, if_neg h1, if_neg h2, if_neg h3, if_neg h4]
  unfold create_descriptor
  rw [if_neg h0, if_neg h1, if_neg h2, if_neg h3, if_neg h4]

theorem create_descriptor_fst (env : IOEnv) (conn t : Nat) (u : DictOrUri)
    (o : Option String) (fb : Option (List String)) (rl : Bool)
    (cp : Option String) :
    (create_descriptor env conn t u o fb rl cp).fst =
      (match o with
       | none => [Effect.queryDefaultRoot,
           Effect.ensureFolder (get_default_bundle_cache_root env)]
       | some _ => []) := by
  by_cases h0 : t = Descriptor.APP
  · subst h0; cases o <;> rfl
  by_cases h1 : t = Descriptor.ENGINE
  · subst h1; cases o <;> rfl
  by_cases h2 : t = Descriptor.FRAMEWORK
  · subst h2; cases o <;> rfl
  by_cases h3 : t = Descriptor.CONFIG
  · subst h3; cases o <;> rfl
  by_cases h4 : t = Descriptor.CORE
  · subst h4; cases o <;> rfl
  unfold create_descriptor
  rw [if_neg h0, if_neg h1, if_neg h2, if_neg h3, if_neg h4]
  cases o <;> rfl

theorem create_descriptor_ok_io (env : IOEnv) (conn t : Nat)
    (u : DictOrUri) (o : Option String) (fb : Option (List String))
    (rl : Bool) (cp : Option String) (d : Descriptor)
    (hok : (create_descriptor env conn t u o fb rl cp).snd = Except.ok d) :
    d.io_descriptor = created_io env conn t u o fb rl cp := by
  rw [create_descriptor_snd] at hok
  by_cases h0 : t = Descriptor.APP
  · rw [if_pos h0] at hok; injection hok with h; subst h; rfl
  rw [if_neg h0] at hok
  by_cases h1 : t = Descriptor.ENGINE
  · rw [if_pos h1] at hok; injection hok with h; subst h; rfl
  rw [if_neg h1] at hok
  by_cases h2 : t = Descriptor.FRAMEWORK
  · rw [if_pos h2] at hok; injection hok with h; subst h; rfl
  rw [if_neg h2] at hok
  by_cases h3 : t = Descriptor.CONFIG
  · rw [if_pos h3] at hok; injection hok with h; subst h; rfl
  rw [if_neg h3] at hok
  by_cases h4 : t = Descriptor.CORE
  · rw [if_pos h4] at hok; injection hok with h; subst h; rfl
  rw [if_neg h4] at hok
  exact Except.noConfusion hok

/-- C4: `create_descriptor` raises `TankDescriptorError` exactly when the
descriptor type is none of the five recognised kinds; for each
recognised kind it returns the matching Descriptor variant wrapping the
constructed IO descriptor. -/
theorem create_descriptor_kind_dispatch (env : IOEnv) (conn : Nat)
    (u : DictOrUri) (o : Option String) (fb : Option (List String))
    (rl : Bool) (cp : Option String) (t : Nat) :
    ((create_descriptor env conn t u o fb rl cp).snd =
        Except.error { message := "Unsupported descriptor type" } ↔
      ¬ (t = Descriptor.APP ∨ t = Descriptor.ENGINE ∨
          t = Descriptor.FRAMEWORK ∨ t = Descriptor.CONFIG ∨
          t = Descriptor.CORE)) ∧
    ((create_descriptor env conn Descriptor.APP u o fb rl cp).snd =
      Except.ok
        { cls := .app
          io_descriptor := created_io env conn Descriptor.APP u o fb rl cp }) ∧
    ((create_descriptor env conn Descriptor.ENGINE u o fb rl cp).snd =
      Except.ok
        { cls := .engine
          io_descriptor := created_io env conn Descriptor.ENGINE u o fb rl cp }) ∧
    ((create_descriptor env conn Descriptor.FRAMEWORK u o fb rl cp).snd =
      Except.ok
        { cls := .framework
          io_descriptor := created_io env conn Descriptor.FRAMEWORK u o fb rl cp }) ∧
    ((create_descriptor env conn Descriptor.CONFIG u o fb rl cp).snd =
      Except.ok
        { cls := .config
          io_descriptor := created_io env conn Descriptor.CONFIG u o fb rl cp }) ∧
    ((create_descriptor env conn Descriptor.CORE u o fb rl cp).snd =
      Except.ok
        { cls := .core
          io_descriptor := created_io env conn Descriptor.CORE u o fb rl cp }) := by
  refine ⟨?_, ?_, ?_, ?_, ?_, ?_⟩ <;> rw [create_descriptor_snd]
  · by_cases h0 : t = Descriptor.APP
    · simp [h0, Descriptor.APP, Descriptor.ENGINE, Descriptor.FRAMEWORK,
        Descriptor.CONFIG, Descriptor.CORE]
    · by_cases h1 : t = Descriptor.ENGINE
      · simp [h0, h1, Descriptor.APP, Descriptor.ENGINE,
          Descriptor.FRAMEWORK, Descriptor.CONFIG, Descriptor.CORE]
      · by_cases h2 : t = Descriptor.FRAMEWORK
        · simp [h0, h1, h2, Descriptor.APP, Descriptor.ENGINE,
            Descriptor.FRAMEWORK, Descriptor.CONFIG, Descriptor.CORE]
        · by_cases h3 : t = Descriptor.CONFIG
          · simp [h0, h1, h2, h3, Descriptor.APP, Descriptor.ENGINE,
              Descriptor.FRAMEWORK, Descriptor.CONFIG, Descriptor.CORE]
          · by_cases h4 : t = Descriptor.CORE
            · simp [h0, h1, h2, h3, h4, Descriptor.APP, Descriptor.ENGINE,
                Descriptor.FRAMEWORK, Descriptor.CONFIG, Descriptor.CORE]
            · simp [h0, h1, h2, h3, h4]
  · simp [Descriptor.APP, Descriptor.ENGINE, Descriptor.FRAMEWORK,
      Descriptor.CONFIG, Descriptor.CORE]
  · simp [Descriptor.APP, Descriptor.ENGINE, Descriptor.FRAMEWORK,
      Descriptor.CONFIG, Descriptor.CORE]
  · simp [Descriptor.APP, Descriptor.ENGINE, Descriptor.FRAMEWORK,
      Descriptor.CONFIG, Descriptor.CORE]
  · simp [Descriptor.APP, Descriptor.ENGINE, Descriptor.FRAMEWORK,
      Descriptor.CONFIG, Descriptor.CORE]
  · simp [Descriptor.APP, Descriptor.ENGINE, Descriptor.FRAMEWORK,
      Descriptor.CONFIG, Descriptor.CORE]

/-- C5: when no cache root override is supplied, `create_descriptor`
consults the process-wide default root provider, ensures the folder
exists, and binds the default root into the IO descriptor; when an
override is supplied, the default provider is not consulted (no side
effect at all) and the override is used unchanged. -/
theorem create_descriptor_cache_root (env : IOEnv) (conn t : Nat)
    (u : DictOrUri) (fb : Option (List String)) (rl : Bool)
    (cp : Option String) :
    ((create_descriptor env conn t u none fb rl cp).fst =
        [Effect.queryDefaultRoot,
          Effect.ensureFolder (get_default_bundle_cache_root env)]) ∧
    (∀ root, (create_descriptor env conn t u (some root) fb rl cp).fst = []) ∧
    (∀ d, (create_descriptor env conn t u none fb rl cp).snd = Except.ok d →
        d.io_descriptor = env.create_io conn t u
          (get_default_bundle_cache_root env) (fb.getD []) rl cp) ∧
    (∀ root d,
        (create_descriptor env conn t u (some root) fb rl cp).snd = Except.ok d →
        d.io_descriptor = env.create_io conn t u root (fb.getD []) rl cp) := by
  refine ⟨?_, ?_, ?_, ?_⟩
  · rw [create_descriptor_fst]
  · intro root
    rw [create_descriptor_fst]
  · intro d hok
    rw [create_descriptor_ok_io env conn t u none fb rl cp d hok]
    rfl
  · intro root d hok
    rw [create_descriptor_ok_io env conn t u (some root) fb rl cp d hok]
    rfl

/-- A concrete `dict_or_uri` argument for evaluating the factory. -/
def exDictOrUri : DictOrUri :=
  DictOrUri.fromDict exIo.dict

/-- The descriptor `create_descriptor` produces for `exEnv` with
connection `7`, type `APP`, no override and no fallback roots. -/
def exAppCreated : Descriptor :=
  { cls := .app
    io_descriptor := exEnv.create_io 7 Descriptor.APP exDictOrUri
      (get_default_bundle_cache_root exEnv) [] false none }

/-- Witness for C5: with no override, the created descriptor binds the
default bundle cache root. -/
theorem create_descriptor_cache_root_witness :
    exAppCreated.io_descriptor =
      exEnv.create_io 7 Descriptor.APP exDictOrUri
        (get_default_bundle_cache_root exEnv) [] false none :=
  (create_descriptor_cache_root exEnv 7 Descriptor.APP exDictOrUri none
      false none).2.2.1 exAppCreated rfl

theorem string_append_ne_empty (a b : String) (hb : b ≠ "") :
    a ++ b ≠ "" := by
  intro hcontra
  apply hb
  have hlen : (a ++ b).length = 0 := by rw [hcontra]; rfl
  rw [String.length_append] at hlen
  have hb0 : b.length = 0 := by omega
  cases b with
  | mk data =>
    cases data with
    | nil => rfl
    | cons c cs => simp [String.length] at hb0

theorem os_path_join_ne_empty (a b : String) (hb : b ≠ "") :
    os_path_join a b ≠ "" := by
  unfold os_path_join
  split
  · exact hb
  split
  · exact hb
  split
  · exact string_append_ne_empty a b hb
  · exact string_append_ne_empty (a ++ "/") b hb

theorem os_path_abspath_ne_empty (cwd p : String) (hp : p ≠ "") :
    os_path_abspath cwd p ≠ "" := by
  unfold os_path_abspath
  split
  · exact hp
  · exact os_path_join_ne_empty cwd p hp

theorem default_icon_path_ne_empty (env : IOEnv) :
    Descriptor.default_icon_path env ≠ "" := by
  unfold Descriptor.default_icon_path
  apply os_path_abspath_ne_empty
  apply os_path_join_ne_empty
  intro hcontra
  exact absurd (congrArg String.length hcontra) (by decide)

/-- C6: a bundle with no manifest (empty mapping) yields the exact
description string `"No description available."`, and `icon_256` is a
non-empty path: the bundle's own `icon_256.png` under `get_path()` when
that file exists, the built-in default icon otherwise. -/
theorem no_manifest_defaults (env : IOEnv) (d : Descriptor)
    (hm : d.io_descriptor.manifest = []) :
    d.description = "No description available." ∧
    Descriptor.icon_256 env d ≠ "" ∧
    (env.path_exists (os_path_join d.get_path "icon_256.png") = true →
        Descriptor.icon_256 env d =
          os_path_join d.get_path "icon_256.png") ∧
    (env.path_exists (os_path_join d.get_path "icon_256.png") = false →
        Descriptor.icon_256 env d = Descriptor.default_icon_path env) := by
  refine ⟨?_, ?_, ?_, ?_⟩
  · simp [Descriptor.description, hm, manifest_get]
  · simp only [Descriptor.icon_256]
    split
    · exact os_path_join_ne_empty _ _ (by
        intro hcontra
        exact absurd (congrArg String.length hcontra) (by decide))
    · exact default_icon_path_ne_empty env
  · intro hex
    simp only [Descriptor.get_path] at hex
    simp only [Descriptor.icon_256, Descriptor.get_path]
    rw [if_pos hex]
  · intro hex
    simp only [Descriptor.get_path] at hex
    simp only [Descriptor.icon_256, Descriptor.get_path]
    rw [if_neg (by rw [hex]; exact Bool.false_ne_true)]

/-- Witness for C6 on `exApp` (empty manifest) in `exEnv` (no icon file
on disk). -/
theorem no_manifest_defaults_witness :
    exApp.description = "No description available." ∧
    Descriptor.icon_256 exEnv exApp ≠ "" ∧
    (exEnv.path_exists (os_path_join exApp.get_path "icon_256.png") = true →
        Descriptor.icon_256 exEnv exApp =
          os_path_join exApp.get_path "icon_256.png") ∧
    (exEnv.path_exists (os_path_join exApp.get_path "icon_256.png") = false →
        Descriptor.icon_256 exEnv exApp =
          Descriptor.default_icon_path exEnv) :=
  no_manifest_defaults exEnv exApp rfl

/-- C7: under the precondition that `get_manifest` returns a key-value
mapping, every metadata accessor is a total function and falls back on
its defined default for a missing key: `display_name` on the system
name, `description` and `support_url` on their fixed strings,
`documentation_url` on `none` (which is fine), while `changelog` and
`deprecation_status` return the IO descriptor's data unchanged. -/
theorem metadata_accessors_total (d : Descriptor)
    (h1 : manifest_get d.io_descriptor.manifest "display_name" = none)
    (h2 : manifest_get d.io_descriptor.manifest "description" = none)
    (h3 : manifest_get d.io_descriptor.manifest "support_url" = none)
    (h4 : manifest_get d.io_descriptor.manifest "documentation_url" = none) :
    d.display_name = d.system_name ∧
    d.description = "No description available." ∧
    d.support_url = "https://support.shotgunsoftware.com" ∧
    d.documentation_url = none ∧
    d.changelog = d.io_descriptor.changelog ∧
    d.deprecation_status = d.io_descriptor.deprecation_status := by
  refine ⟨?_, ?_, ?_, ?_, rfl, rfl⟩
  · simp [Descriptor.display_name, h1]
  · simp [Descriptor.description, h2]
  · simp [Descriptor.support_url, h3]
  · simp [Descriptor.documentation_url, h4]

/-- Witness for C7 on `exApp`, whose manifest is the empty mapping. -/
theorem metadata_accessors_total_witness :
    exApp.display_name = exApp.system_name ∧
    exApp.description = "No description available." ∧
    exApp.support_url = "https://support.shotgunsoftware.com" ∧
    exApp.documentation_url = none ∧
    exApp.changelog = exApp.io_descriptor.changelog ∧
    exApp.deprecation_status = exApp.io_descriptor.deprecation_status :=
  metadata_accessors_total exApp rfl rfl rfl rfl

/-- The delimiter of the uri encoding. -/
def uri_separator : Char := ':'

/-- The leading backend prefix token of every descriptor uri. -/
def sgtk_token : List Char := "sgtk".toList

/-- The second prefix token of every descriptor uri. -/
def descriptor_token : List Char := "descriptor".toList

/-- Modelled from the spec: the uri producer of the IO descriptor layer
(missing from the sources at hand): a backend-prefixed,
delimiter-separated encoding of the structured reference fields. -/
def descriptor_uri_of (r : LocationReference) : List Char :=
  List.intercalate [uri_separator]
    ([sgtk_token, descriptor_token, r.kind] ++ r.fields)

/-- Modelled from the spec: the uri parser of the IO descriptor layer
(missing from the sources at hand): split on the delimiter, check the
prefix tokens, and read back kind and fields. -/
def parse_descriptor_uri (u : List Char) : Option LocationReference :=
  match u.splitOn uri_separator with
  | a :: b :: k :: fs =>
      if a = sgtk_token ∧ b = descriptor_token then
        some { kind := k, fields := fs }
      else none
  | _ => none

/-- A location reference is syntactically well formed when none of its
tokens contains the delimiter. -/
def LocationReference.wf (r : LocationReference) : Prop :=
  uri_separator ∉ r.kind ∧ ∀ f ∈ r.fields, uri_separator ∉ f

instance (r : LocationReference) : Decidable r.wf :=
  inferInstanceAs
    (Decidable (uri_separator ∉ r.kind ∧ ∀ f ∈ r.fields, uri_separator ∉ f))

/-- `Descriptor.get_uri`: the string-form location reference, equivalent
to the dictionary returned by `get_dict` (delegates to the IO
descriptor's uri producer). -/
def Descriptor.get_uri (d : Descriptor) : List Char :=
  descriptor_uri_of d.io_descriptor.dict

/-- C8: the dictionary and uri forms of a location reference round-trip
losslessly: parsing the produced uri yields the reference back, and
producing a uri from any successfully parsed uri string yields that
string back; consequently a Descriptor's `get_uri` parses back to
exactly its `get_dict`. -/
theorem uri_dict_roundtrip :
    (∀ r : LocationReference, r.wf →
        parse_descriptor_uri (descriptor_uri_of r) = some r) ∧
    (∀ (u : List Char) (r : LocationReference),
        parse_descriptor_uri u = some r → descriptor_uri_of r = u) ∧
    (∀ d : Descriptor, d.io_descriptor.dict.wf →
        parse_descriptor_uri d.get_uri = some d.get_dict) := by
  have hforward : ∀ r : LocationReference, r.wf →
      parse_descriptor_uri (descriptor_uri_of r) = some r := by
    intro r hr
    unfold parse_descriptor_uri descriptor_uri_of
    rw [List.splitOn_intercalate]
    · show (if sgtk_token = sgtk_token ∧ descriptor_token = descriptor_token
          then some ({ kind := r.kind, fields := r.fields } : LocationReference)
          else none) = some r
      rw [if_pos ⟨rfl, rfl⟩]
    · intro l hl
      rcases List.mem_append.mp hl with hl1 | hl2
      · simp only [List.mem_cons, List.not_mem_nil, or_false] at hl1
        rcases hl1 with rfl | rfl | rfl
        · decide
        · decide
        · exact hr.1
      · exact hr.2 l hl2
    · simp
  have hback : ∀ (u : List Char) (r : LocationReference),
      parse_descriptor_uri u = some r → descriptor_uri_of r = u := by
    intro u r hp
    unfold parse_descriptor_uri at hp
    cases hs : u.splitOn uri_separator with
    | nil => rw [hs] at hp; exact Option.noConfusion hp
    | cons a t1 =>
      cases t1 with
      | nil => rw [hs] at hp; exact Option.noConfusion hp
      | cons b t2 =>
        cases t2 with
        | nil => rw [hs] at hp; exact Option.noConfusion hp
        | cons k fs =>
          rw [hs] at hp
          replace hp :
              (if a = sgtk_token ∧ b = descriptor_token then
                some ({ kind := k, fields := fs } : LocationReference)
              else none) = some r := hp
          by_cases hc : a = sgtk_token ∧ b = descriptor_token
          · rw [if_pos hc] at hp
            injection hp with h
            subst h
            obtain ⟨ha, hb⟩ := hc
            subst ha
            subst hb
            have hrec : [uri_separator].intercalate (u.splitOn uri_separator) = u :=
              List.intercalate_splitOn u uri_separator
            rw [hs] at hrec
            exact hrec
          · rw [if_neg hc] at hp
            exact Option.noConfusion hp
  refine ⟨hforward, hback, ?_⟩
  intro d hw
  exact hforward d.io_descriptor.dict hw

/-- Witness for C8 at the concrete reference carried by `exIo`. -/
theorem uri_dict_roundtrip_witness :
    parse_descriptor_uri (descriptor_uri_of exIo.dict) = some exIo.dict :=
  uri_dict_roundtrip.1 exIo.dict (by decide)

end TkCore
